import Mathlib

/-!
Shallow embedding of `src/audio-video.ts`, a WebSocket connection broker.
The source file concatenates two server variants:

* the **call-signaling variant** (`setupWebSocket` at lines 25-173 together
  with `handleParcelChatMessage`), which keeps a registry `onlineUsers :
  Map<id, (socket, path)>` plus a role index `onlineCouriers`, runs a
  30-second liveness interval, and relays WebRTC signaling events; and
* the **chat/location variant** (the second `setupWebSocket`, lines 328-628),
  which keeps `onlineUsers : Set<id>`, `userSockets : Map<id, socket>`,
  `userLocations`, `locationSubscribers`, persists rooms/chats through a
  Prisma store, and broadcasts presence with `broadcastToAll`.

Modelling conventions:
* sockets are identified by natural numbers; per-socket mutable fields
  (`userId`, `userRole`, `userName`, `isAlive`, `path`, `readyState`) live in
  a function `socks : Nat → …`; `wss.clients` is a `List Nat`;
* a JS `Map` is a function `String → Option α` (so the JS guarantee "one
  value per key" is structural); a JS `Set<WebSocket>` is a duplicate-free
  `List Nat` built with set-semantics insert;
* outbound `ws.send` calls are collected in a list of (socket id, envelope)
  pairs, in program order; a `send` is recorded whether or not the target is
  open, exactly as the source calls it;
* JS truthiness of optional strings (`!token`, `!ws.userId`, `!receiverId`,
  `!message`) is `strFalsy`: `undefined` and `""` are falsy;
* the Prisma store is modelled as in-memory lists carried in the state:
  `findFirst` is the first match in insertion order, `create` appends with a
  fresh numeric id, `updateMany` maps over the list;
* `jwtHelpers.verifyToken` and `config` are external to `src/`; token
  verification is a parameter `vf : String → Option AuthUser` where `none`
  means the verifier fails (throws), per the spec's
  `verifyCredential(token) → {id, role, email} | fails(InvalidCredential)`.
-/

/-- JS truthiness for an optional string: `undefined`/absent and `""` are falsy. -/
def strFalsy : Option String → Bool
  | none => true
  | some s => s = ""

/-- `WebSocket.OPEN` readyState constant. -/
def wsOPEN : Nat := 1

/-- readyState after `ws.close()` is called (CLOSING). -/
def wsCLOSING : Nat := 2

/-- readyState after `ws.terminate()` (CLOSED). -/
def wsCLOSED : Nat := 3

/-- Result of `jwtHelpers.verifyToken`: the `{ id, role, email }` claims used
by the handlers. `UserRole.Client`/`UserRole.Host` are the strings `"Client"`
and `"Host"`. -/
structure AuthUser where
  id : String
  role : String
  email : String
deriving DecidableEq, Repr

/-- Map update: JS `map.set(k, v)`. -/
def mset {α : Type} (m : String → Option α) (k : String) (v : α) : String → Option α :=
  fun x => if x = k then some v else m x

/-- Map removal: JS `map.delete(k)` (no-op when absent). -/
def mdel {α : Type} (m : String → Option α) (k : String) : String → Option α :=
  fun x => if x = k then none else m x

/-- JS `Set.add` on a set of sockets modelled as a duplicate-free list. -/
def setAdd (l : List Nat) (x : Nat) : List Nat :=
  if x ∈ l then l else l ++ [x]

namespace CallSignal

/-!
## Variant 1: the call-signaling server (`setupWebSocket`, lines 25-173, and
`handleParcelChatMessage`, lines 175-306)
-/

/-- Per-socket fields of `ExtendedWebSocket` (first declaration, lines 10-16),
plus the transport-level `readyState`. -/
structure Sock where
  userId : Option String
  userRole : Option String
  userName : Option String
  isAlive : Bool
  path : String
  readyState : Nat
deriving DecidableEq, Repr

/-- Global mutable state of the call-signaling variant: `wss.clients`, the
per-socket fields, `onlineUsers : Map<id, { socket, path }>` and the role
index `onlineCouriers : Map<id, socket>`. -/
structure State where
  clients : List Nat
  socks : Nat → Sock
  onlineUsers : String → Option (Nat × String)
  onlineCouriers : String → Option Nat

/-- Inbound envelopes of the call-signaling variant. Optional fields are
`Option` because the client may omit them. `other` covers any unknown event
tag. -/
inductive In where
  | authenticate (token : Option String)
  | callUser (toUserId : String) (offer : String) (callType : Option String)
  | answerCall (toUserId : String) (answer : String)
  | iceCandidate (toUserId : String) (candidate : String)
  | disconnectCall (toUserId : String)
  | other (tag : String)
deriving DecidableEq, Repr

/-- Whether an inbound envelope's event tag is `"authenticate"` (the only tag
admitted through the authentication gate). -/
def In.isAuthenticate : In → Bool
  | In.authenticate _ => true
  | _ => false

/-- Outbound envelopes of the call-signaling variant. -/
inductive Out where
  | errorMsg (message : String)
  | info (message : String)
  | authenticated (userId : String) (role : String)
  | incomingCall (fromUserId : String) (offer : String) (callType : String)
  | callAnswered (fromUserId : String) (answer : String)
  | iceCandidateOut (fromUserId : String) (candidate : String)
  | callDisconnected (fromUserId : String)
deriving DecidableEq, Repr

/-- A send is a (target socket, envelope) pair; sends are listed in program
order. -/
abbrev Sends := List (Nat × Out)

/-- `handleParcelChatMessage` (lines 175-306): WebRTC signaling relay.
Reached only for authenticated sockets whose path is not
`"/driver-location"`. Never mutates state, so it returns only the sends. -/
def handleParcelChatMessage (st : State) (wsId : Nat) (msg : In) : Sends :=
  let ws := st.socks wsId
  match msg with
  | In.callUser toUserId offer callType =>
    if ws.userRole ≠ some "Client" then
      [(wsId, Out.errorMsg "Only Client can initiate a call.")]
    else if strFalsy callType ∨ (callType ≠ some "audio" ∧ callType ≠ some "video") then
      [(wsId, Out.errorMsg "Invalid or missing callType. Must be audio or video.")]
    else
      match st.onlineUsers toUserId with
      | some (rid, _) =>
        if (st.socks rid).readyState = wsOPEN ∧ (st.socks rid).userRole = some "Host" then
          [(rid, Out.incomingCall (ws.userId.getD "") offer (callType.getD ""))]
        else
          [(wsId, Out.errorMsg "Host not available or invalid recipient.")]
      | none => [(wsId, Out.errorMsg "Host not available or invalid recipient.")]
  | In.answerCall toUserId answer =>
    match st.onlineUsers toUserId with
    | some (rid, _) =>
      if (st.socks rid).readyState = wsOPEN then
        [(rid, Out.callAnswered (ws.userId.getD "") answer)]
      else []
    | none => []
  | In.iceCandidate toUserId candidate =>
    match st.onlineUsers toUserId with
    | some (rid, _) =>
      if (st.socks rid).readyState = wsOPEN then
        [(rid, Out.iceCandidateOut (ws.userId.getD "") candidate)]
      else []
    | none => []
  | In.disconnectCall toUserId =>
    match st.onlineUsers toUserId with
    | some (rid, _) =>
      if (st.socks rid).readyState = wsOPEN then
        [(rid, Out.callDisconnected (ws.userId.getD ""))]
      else []
    | none => []
  | In.authenticate _ => []
  | In.other _ => [(wsId, Out.errorMsg "Unknown event type")]

/-- The `"authenticate"` case of the message handler (lines 91-144): token
check, verification, eviction of an existing same-path connection for the
same identity (closing it and removing its registry entry, and the courier
entry when the incoming role is `Client`), then registration and ack. -/
def authenticate (vf : String → Option AuthUser) (st : State) (wsId : Nat)
    (token : Option String) : State × Sends :=
  let ws := st.socks wsId
  if strFalsy token then
    (st, [(wsId, Out.errorMsg "Token is required for authentication")])
  else
    match vf (token.getD "") with
    | none => (st, [(wsId, Out.errorMsg "Invalid token")])
    | some user =>
      let st1 :=
        match st.onlineUsers user.id with
        | some (sid, p) =>
          if p = ws.path then
            let stA := { st with
              socks := fun x => if x = sid then
                  { st.socks sid with readyState := wsCLOSING } else st.socks x,
              onlineUsers := mdel st.onlineUsers user.id }
            if user.role = "Client" then
              { stA with onlineCouriers := mdel stA.onlineCouriers user.id }
            else stA
          else st
        | none => st
      let st2 := { st1 with
        socks := fun x => if x = wsId then
            { st1.socks wsId with
                userId := some user.id, userRole := some user.role,
                userName := some user.email }
          else st1.socks x }
      let st3 := { st2 with
        onlineUsers := mset st2.onlineUsers user.id (wsId, ws.path) }
      let st4 :=
        if user.role = "Client" then
          { st3 with onlineCouriers := mset st3.onlineCouriers user.id wsId }
        else st3
      (st4, [(wsId, Out.authenticated user.id user.role)])

/-- The message handler (lines 76-159): authentication gate, the
`authenticate` case, then path dispatch — `"/driver-location"` only logs,
every other path goes to `handleParcelChatMessage`. -/
def handleMessage (vf : String → Option AuthUser) (st : State) (wsId : Nat)
    (msg : In) : State × Sends :=
  let ws := st.socks wsId
  if strFalsy ws.userId ∧ ¬ msg.isAuthenticate then
    (st, [(wsId, Out.errorMsg "Please authenticate first")])
  else
    match msg with
    | In.authenticate token => authenticate vf st wsId token
    | _ =>
      if ws.path = "/driver-location" then (st, [])
      else (st, handleParcelChatMessage st wsId msg)

/-- The `close` handler (lines 162-169): when the socket carries an identity,
remove its registry entry and, when its role is `Client`, its courier entry.
The transport also removes the socket from `wss.clients` and marks it closed. -/
def closeSock (st : State) (wsId : Nat) : State :=
  let ws := st.socks wsId
  let st0 := { st with
    clients := st.clients.erase wsId,
    socks := fun x => if x = wsId then { ws with readyState := wsCLOSED } else st.socks x }
  if strFalsy ws.userId then st0
  else
    let st1 := { st0 with onlineUsers := mdel st0.onlineUsers (ws.userId.getD "") }
    if ws.userRole = some "Client" then
      { st1 with onlineCouriers := mdel st1.onlineCouriers (ws.userId.getD "") }
    else st1

/-- The liveness interval period (line 57): 30000 milliseconds. -/
def livenessIntervalMs : Nat := 30000

/-- One socket's share of a liveness tick (body of the `forEach` at lines
44-56): a socket that did not answer the previous probe has its registry and
courier entries removed and is terminated; otherwise it is marked pending and
pinged (the returned list collects the pinged sockets). -/
def tickStep (acc : State × List Nat) (c : Nat) : State × List Nat :=
  let st := acc.1
  let ws := st.socks c
  if ws.isAlive = false then
    let st1 :=
      if strFalsy ws.userId then st
      else
        let stA := { st with onlineUsers := mdel st.onlineUsers (ws.userId.getD "") }
        if ws.userRole = some "Client" then
          { stA with onlineCouriers := mdel stA.onlineCouriers (ws.userId.getD "") }
        else stA
    ({ st1 with
        clients := st1.clients.erase c,
        socks := fun x => if x = c then { ws with readyState := wsCLOSED } else st1.socks x },
     acc.2)
  else
    ({ st with
        socks := fun x => if x = c then { ws with isAlive := false } else st.socks x },
     acc.2 ++ [c])

/-- One liveness tick (the `setInterval` callback, lines 43-57): iterate the
snapshot of `wss.clients`. -/
def tick (st : State) : State × List Nat :=
  st.clients.foldl tickStep (st, [])

/-- The `pong` handler (line 73 via `heartbeat`): a probe response sets
`isAlive` back to `true`. -/
def pong (st : State) (wsId : Nat) : State :=
  { st with socks := fun x => if x = wsId then
      { st.socks wsId with isAlive := true } else st.socks x }

end CallSignal

namespace ChatWS

/-!
## Variant 2: the chat/location server (second `setupWebSocket`,
lines 328-620, and `broadcastToAll`, lines 622-628)
-/

/-- Per-socket fields of the second `ExtendedWebSocket` (lines 314-316): only
`userId`, plus the transport-level `readyState`. -/
structure Sock where
  userId : Option String
  readyState : Nat
deriving DecidableEq, Repr

/-- A Prisma `Room` row: `{ id, senderId, receiverId }`. -/
structure Room where
  id : Nat
  senderId : String
  receiverId : String
deriving DecidableEq, Repr

/-- A Prisma `Chat` row: `{ id, senderId, receiverId, roomId, message,
images, isRead }`; `isRead` defaults to `false` on creation. -/
structure Chat where
  id : Nat
  senderId : String
  receiverId : String
  roomId : Nat
  message : String
  images : List String
  isRead : Bool
deriving DecidableEq, Repr

/-- The `prisma.user.findMany` selection used by `messageList`
(lines 560-563): `{ profileImage, firstName, lastName, id }`. -/
structure UserInfo where
  id : String
  profileImage : String
  firstName : String
  lastName : String
deriving DecidableEq, Repr

/-- Global mutable state of the chat/location variant: `wss.clients`, the
per-socket fields, `onlineUsers : Set<string>`, `userSockets : Map<id,
socket>`, `userLocations`, `locationSubscribers : Map<target, Set<socket>>`
(total with default `[]`), and the Prisma store (rooms, chats, user rows,
fresh-id counters; the `user.update` writes of `locationUpdate` land in
`dbUserLocations`, read by nothing). -/
structure State where
  clients : List Nat
  socks : Nat → Sock
  onlineUsers : String → Bool
  userSockets : String → Option Nat
  userLocations : String → Option (Int × Int)
  locationSubscribers : String → List Nat
  rooms : List Room
  chats : List Chat
  users : List UserInfo
  dbUserLocations : String → Option (Int × Int)
  nextRoomId : Nat
  nextChatId : Nat

/-- Inbound envelopes of the chat/location variant. -/
inductive In where
  | authenticate (token : Option String)
  | locationUpdate (lat lng : Option Int)
  | subscribeToLocation (targetUserId : Option String)
  | message (receiverId : Option String) (message : Option String)
      (images : Option (List String))
  | fetchChats (receiverId : Option String)
  | unReadMessages (receiverId : Option String)
  | messageList
  | unknown (tag : String)
deriving DecidableEq, Repr

/-- Whether the event tag is `"authenticate"`. -/
def In.isAuthenticate : In → Bool
  | In.authenticate _ => true
  | _ => false

/-- Outbound envelopes of the chat/location variant. -/
inductive Out where
  | errorMsg (message : String)
  | userStatus (userId : String) (isOnline : Bool)
  | locationUpdate (userId : String) (lat lng : Int)
  | chatMsg (chat : Chat)
  | noRoomFound
  | fetchChats (chats : List Chat)
  | noUnreadMessages
  | unReadMessages (messages : List Chat) (count : Nat)
  | messageList (entries : List (Option UserInfo × Option Chat))
deriving DecidableEq, Repr

/-- A send is a (target socket, envelope) pair, in program order. -/
abbrev Sends := List (Nat × Out)

/-- Whether a room pairs the two ids in either orientation — the `OR` clause
of every `prisma.room.findFirst` in this variant. -/
def roomMatches (a b : String) (r : Room) : Bool :=
  (r.senderId = a ∧ r.receiverId = b) ∨ (r.senderId = b ∧ r.receiverId = a)

/-- `prisma.room.findFirst` for the unordered pair: first match in insertion
order. -/
def findRoom (st : State) (a b : String) : Option Room :=
  st.rooms.find? (roomMatches a b)

/-- `broadcastToAll` (lines 622-628): send to every client whose readyState
is `OPEN`. -/
def broadcastToAll (st : State) (msg : Out) : Sends :=
  (st.clients.filter (fun c => (st.socks c).readyState = wsOPEN)).map
    (fun c => (c, msg))

/-- The message handler of the chat/location variant (lines 337-594). There
is no authentication gate: each case checks `ws.userId` itself and silently
returns when it is missing. A verification failure in the `authenticate`
case propagates to the handler's catch block (line 591-593), which only
logs — no send, no close, no state change. -/
def handleMessage (vf : String → Option AuthUser) (st : State) (wsId : Nat)
    (msg : In) : State × Sends :=
  let ws := st.socks wsId
  match msg with
  | In.authenticate token =>
    if strFalsy token then
      -- `if (!token) return ws.close();`
      ({ st with socks := fun x => if x = wsId then
          { ws with readyState := wsCLOSING } else st.socks x }, [])
    else
      match vf (token.getD "") with
      | none => (st, [])   -- verifyToken throws; outer catch only logs
      | some user =>
        let st1 := { st with
          socks := fun x => if x = wsId then
              { ws with userId := some user.id } else st.socks x,
          onlineUsers := fun u => if u = user.id then true else st.onlineUsers u,
          userSockets := mset st.userSockets user.id wsId }
        (st1, broadcastToAll st1 (Out.userStatus user.id true))
  | In.locationUpdate lat lng =>
    if strFalsy ws.userId ∨ lat.isNone ∨ lng.isNone then (st, [])
    else
      let uid := ws.userId.getD ""
      let la := lat.getD 0
      let ln := lng.getD 0
      let st1 := { st with
        userLocations := mset st.userLocations uid (la, ln),
        dbUserLocations := mset st.dbUserLocations uid (la, ln) }
      let subs := st1.locationSubscribers uid
      (st1,
       (subs.filter (fun s => (st1.socks s).readyState = wsOPEN)).map
         (fun s => (s, Out.locationUpdate uid la ln)))
  | In.subscribeToLocation targetUserId =>
    if strFalsy ws.userId ∨ strFalsy targetUserId then (st, [])
    else
      let tgt := targetUserId.getD ""
      ({ st with locationSubscribers := fun t =>
          if t = tgt then setAdd (st.locationSubscribers tgt) wsId
          else st.locationSubscribers t }, [])
  | In.message receiverId message images =>
    if strFalsy ws.userId ∨ strFalsy receiverId ∨ strFalsy message then
      -- `console.log("Invalid message payload"); return;` — log only
      (st, [])
    else
      let uid := ws.userId.getD ""
      let rid := receiverId.getD ""
      let (room, st1) :=
        match findRoom st uid rid with
        | some r => (r, st)
        | none =>
          let r : Room := { id := st.nextRoomId, senderId := uid, receiverId := rid }
          (r, { st with rooms := st.rooms ++ [r], nextRoomId := st.nextRoomId + 1 })
      let chat : Chat := { id := st1.nextChatId, senderId := uid, receiverId := rid,
                           roomId := room.id, message := message.getD "",
                           images := images.getD [], isRead := false }
      let st2 := { st1 with chats := st1.chats ++ [chat],
                            nextChatId := st1.nextChatId + 1 }
      let toReceiver : Sends :=
        match st2.userSockets rid with
        | some s => if (st2.socks s).readyState = wsOPEN then [(s, Out.chatMsg chat)] else []
        | none => []
      (st2, toReceiver ++ [(wsId, Out.chatMsg chat)])
  | In.fetchChats receiverId =>
    if strFalsy ws.userId ∨ strFalsy receiverId then (st, [])
    else
      let uid := ws.userId.getD ""
      let rid := receiverId.getD ""
      match findRoom st uid rid with
      | none => (st, [(wsId, Out.noRoomFound)])
      | some room =>
        let chats := st.chats.filter (fun c => c.roomId = room.id)
        let st1 := { st with chats := st.chats.map (fun c =>
            if c.roomId = room.id ∧ c.receiverId = uid then
              { c with isRead := true } else c) }
        (st1, [(wsId, Out.fetchChats chats)])
  | In.unReadMessages receiverId =>
    if strFalsy ws.userId ∨ strFalsy receiverId then (st, [])
    else
      let uid := ws.userId.getD ""
      let rid := receiverId.getD ""
      match findRoom st uid rid with
      | none => (st, [(wsId, Out.noUnreadMessages)])
      | some room =>
        let unread := st.chats.filter (fun c =>
          c.roomId = room.id ∧ c.isRead = false ∧ c.receiverId = uid)
        (st, [(wsId, Out.unReadMessages unread unread.length)])
  | In.messageList =>
    if strFalsy ws.userId then (st, [])
    else
      let uid := ws.userId.getD ""
      let rooms := st.rooms.filter (fun r => r.senderId = uid ∨ r.receiverId = uid)
      let userIds := rooms.map (fun r => if r.senderId = uid then r.receiverId else r.senderId)
      let userInfos := st.users.filter (fun u => u.id ∈ userIds)
      let entries := rooms.map (fun r =>
        let otherUserId := if r.senderId = uid then r.receiverId else r.senderId
        (userInfos.find? (fun u => u.id = otherUserId),
         (st.chats.filter (fun c => c.roomId = r.id)).getLast?))
      (st, [(wsId, Out.messageList entries)])
  | In.unknown _ => (st, [])   -- `console.log("Unknown event:", ...)` only

/-- The `close` handler (lines 599-616): the transport removes the socket
from `wss.clients` and marks it closed; when it carries a truthy identity the
handler removes it from `onlineUsers`/`userSockets`, broadcasts
`userStatus { isOnline: false }`, and deletes the socket from every
subscriber set. -/
def closeSock (st : State) (wsId : Nat) : State × Sends :=
  let ws := st.socks wsId
  let st0 := { st with
    clients := st.clients.erase wsId,
    socks := fun x => if x = wsId then { ws with readyState := wsCLOSED } else st.socks x }
  if strFalsy ws.userId then (st0, [])
  else
    let uid := ws.userId.getD ""
    let st1 := { st0 with
      onlineUsers := fun u => if u = uid then false else st0.onlineUsers u,
      userSockets := mdel st0.userSockets uid }
    let sends := broadcastToAll st1 (Out.userStatus uid false)
    let st2 := { st1 with locationSubscribers := fun t =>
        (st1.locationSubscribers t).filter (fun s => s ≠ wsId) }
    (st2, sends)

end ChatWS

/-!
## Concrete fixtures used by counterexamples and witnesses
-/

/-- A concrete verifier: `"tokU"` verifies as identity `U` with role `Host`,
`"tokUC"` as `U` with role `Client`, `"tokT"` as `T` with role `Client`;
every other token fails verification. -/
def vfEx : String → Option AuthUser := fun t =>
  if t = "tokU" then some ⟨"U", "Host", "u"⟩
  else if t = "tokUC" then some ⟨"U", "Client", "u"⟩
  else if t = "tokT" then some ⟨"T", "Client", "t"⟩
  else none

/-- Chat-variant fixture: two open, unauthenticated sockets 0 and 1; all
registries empty. -/
def chatBase : ChatWS.State where
  clients := [0, 1]
  socks := fun x =>
    if x = 0 then ⟨none, wsOPEN⟩
    else if x = 1 then ⟨none, wsOPEN⟩
    else ⟨none, wsCLOSED⟩
  onlineUsers := fun _ => false
  userSockets := fun _ => none
  userLocations := fun _ => none
  locationSubscribers := fun _ => []
  rooms := []
  chats := []
  users := []
  dbUserLocations := fun _ => none
  nextRoomId := 0
  nextChatId := 0

/-- Chat-variant fixture: socket 0 authenticated as `"A"`, socket 1
authenticated as `"B"`, both registered and open; store empty. -/
def chatAuthed : ChatWS.State where
  clients := [0, 1]
  socks := fun x =>
    if x = 0 then ⟨some "A", wsOPEN⟩
    else if x = 1 then ⟨some "B", wsOPEN⟩
    else ⟨none, wsCLOSED⟩
  onlineUsers := fun u => u = "A" ∨ u = "B"
  userSockets := fun u => if u = "A" then some 0 else if u = "B" then some 1 else none
  userLocations := fun _ => none
  locationSubscribers := fun _ => []
  rooms := []
  chats := []
  users := []
  dbUserLocations := fun _ => none
  nextRoomId := 0
  nextChatId := 0

/-- Call-signaling fixture: socket 0 authenticated as `"U"` with role
`Client` on path `"/chat"` and registered (including the courier index);
socket 1 unauthenticated on the same path. -/
def csBase : CallSignal.State where
  clients := [0, 1]
  socks := fun x =>
    if x = 0 then ⟨some "U", some "Client", some "u", true, "/chat", wsOPEN⟩
    else if x = 1 then ⟨none, none, none, true, "/chat", wsOPEN⟩
    else ⟨none, none, none, true, "/chat", wsCLOSED⟩
  onlineUsers := fun u => if u = "U" then some (0, "/chat") else none
  onlineCouriers := fun u => if u = "U" then some 0 else none

/-- Call-signaling fixture for the liveness tick: socket 0 (identity `"U"`,
role `Client`, registered in both indices) missed its probe; socket 1
answered it. -/
def csTick : CallSignal.State where
  clients := [0, 1]
  socks := fun x =>
    if x = 0 then ⟨some "U", some "Client", some "u", false, "/chat", wsOPEN⟩
    else if x = 1 then ⟨none, none, none, true, "/chat", wsOPEN⟩
    else ⟨none, none, none, true, "/chat", wsCLOSED⟩
  onlineUsers := fun u => if u = "U" then some (0, "/chat") else none
  onlineCouriers := fun u => if u = "U" then some 0 else none

/-!
## Claims
-/

/-- **C1** (amended): on a connection with no truthy identity, a
non-`authenticate` envelope is answered, in the call-signaling variant, with
the error envelope "Please authenticate first" and no state change; in the
chat variant it is silently dropped — no envelope at all — and no state
change. -/
theorem c1_unauthenticated_gate (vf : String → Option AuthUser)
    (st1 : CallSignal.State) (st2 : ChatWS.State) (w1 w2 : Nat)
    (m1 : CallSignal.In) (m2 : ChatWS.In)
    (h1 : strFalsy (st1.socks w1).userId = true)
    (hm1 : m1.isAuthenticate = false)
    (h2 : strFalsy (st2.socks w2).userId = true)
    (hm2 : m2.isAuthenticate = false) :
    CallSignal.handleMessage vf st1 w1 m1
      = (st1, [(w1, CallSignal.Out.errorMsg "Please authenticate first")])
    ∧ ChatWS.handleMessage vf st2 w2 m2 = (st2, []) := by
  constructor
  · unfold CallSignal.handleMessage
    simp [h1, hm1]
  · cases m2 with
    | authenticate tk => simp [ChatWS.In.isAuthenticate] at hm2
    | locationUpdate lat lng => unfold ChatWS.handleMessage; simp [h2]
    | subscribeToLocation t => unfold ChatWS.handleMessage; simp [h2]
    | message r m i => unfold ChatWS.handleMessage; simp [h2]
    | fetchChats r => unfold ChatWS.handleMessage; simp [h2]
    | unReadMessages r => unfold ChatWS.handleMessage; simp [h2]
    | messageList => unfold ChatWS.handleMessage; simp [h2]
    | unknown t => unfold ChatWS.handleMessage; simp

/-- **C1** witness: the two behaviors at concrete inputs. -/
theorem c1_unauthenticated_gate_witness :
    strFalsy (csBase.socks 1).userId = true
    ∧ (CallSignal.In.other "ping").isAuthenticate = false
    ∧ strFalsy (chatBase.socks 0).userId = true
    ∧ (ChatWS.In.subscribeToLocation (some "T")).isAuthenticate = false
    ∧ (CallSignal.handleMessage vfEx csBase 1 (CallSignal.In.other "ping")
        = (csBase, [(1, CallSignal.Out.errorMsg "Please authenticate first")])
      ∧ ChatWS.handleMessage vfEx chatBase 0 (ChatWS.In.subscribeToLocation (some "T"))
        = (chatBase, [])) :=
  ⟨by decide, by decide, by decide, by decide,
   c1_unauthenticated_gate vfEx csBase chatBase 1 0 (CallSignal.In.other "ping")
     (ChatWS.In.subscribeToLocation (some "T"))
     (by decide) (by decide) (by decide) (by decide)⟩

/-- **C1** counterexample: in the chat variant an unauthenticated
`subscribeToLocation` produces no outbound envelope at all — in particular no
"Please authenticate first" error envelope, contrary to the claim. -/
theorem c1_counterexample :
    (ChatWS.handleMessage vfEx chatBase 0
      (ChatWS.In.subscribeToLocation (some "T"))).2 = [] := by
  decide

/-- **C9** (amended): a `message` event whose `receiverId` or `message` is
missing/empty is dropped with only a server-side log: no envelope is sent to
the sender, the connection is untouched, and no Room or Chat is created (the
whole state is unchanged). -/
theorem c9_invalid_message_payload (vf : String → Option AuthUser)
    (st : ChatWS.State) (wsId : Nat)
    (rid m : Option String) (imgs : Option (List String))
    (hbad : strFalsy rid = true ∨ strFalsy m = true) :
    ChatWS.handleMessage vf st wsId (ChatWS.In.message rid m imgs) = (st, []) := by
  unfold ChatWS.handleMessage
  rcases hbad with h | h <;> simp [h]

/-- **C9** witness: a missing `receiverId` from an authenticated sender. -/
theorem c9_invalid_message_payload_witness :
    (strFalsy (none : Option String) = true ∨ strFalsy (some "hi") = true)
    ∧ ChatWS.handleMessage vfEx chatAuthed 0 (ChatWS.In.message none (some "hi") none)
        = (chatAuthed, []) :=
  ⟨Or.inl (by decide),
   c9_invalid_message_payload vfEx chatAuthed 0 none (some "hi") none (Or.inl (by decide))⟩

/-- **C9** counterexample: an authenticated sender whose `message` event
lacks `receiverId` receives no envelope at all — in particular no "Invalid
message payload" error envelope, contrary to the claim (the string appears
only in a `console.log`). -/
theorem c9_counterexample :
    (ChatWS.handleMessage vfEx chatAuthed 0
      (ChatWS.In.message none (some "hi") none)).2 = [] := by
  decide

/-- **C8** (amended): the call-signaling variant answers both authentication
failure kinds with an error envelope and leaves the connection open (one
consistent policy); the chat variant closes the connection on a missing
token but swallows a failed verification in its catch handler (no envelope,
connection left open) — a mix of outcomes across failure kinds. -/
theorem c8_auth_failure_policy (vf : String → Option AuthUser)
    (st1 : CallSignal.State) (st2 : ChatWS.State) (w1 w2 : Nat)
    (tk : String) (htk : tk ≠ "") (hv : vf tk = none) :
    CallSignal.handleMessage vf st1 w1 (CallSignal.In.authenticate none)
      = (st1, [(w1, CallSignal.Out.errorMsg "Token is required for authentication")])
    ∧ CallSignal.handleMessage vf st1 w1 (CallSignal.In.authenticate (some tk))
      = (st1, [(w1, CallSignal.Out.errorMsg "Invalid token")])
    ∧ (((ChatWS.handleMessage vf st2 w2 (ChatWS.In.authenticate none)).1.socks w2).readyState
        = wsCLOSING
      ∧ (ChatWS.handleMessage vf st2 w2 (ChatWS.In.authenticate none)).2 = [])
    ∧ ChatWS.handleMessage vf st2 w2 (ChatWS.In.authenticate (some tk)) = (st2, []) := by
  refine ⟨?_, ?_, ⟨?_, ?_⟩, ?_⟩
  · unfold CallSignal.handleMessage CallSignal.authenticate
    simp [CallSignal.In.isAuthenticate, strFalsy]
  · unfold CallSignal.handleMessage CallSignal.authenticate
    simp [CallSignal.In.isAuthenticate, strFalsy, htk, hv]
  · unfold ChatWS.handleMessage
    simp [strFalsy]
  · unfold ChatWS.handleMessage
    simp [strFalsy]
  · unfold ChatWS.handleMessage
    simp [strFalsy, htk, hv]

/-- **C8** witness: the four failure outcomes at concrete inputs. -/
theorem c8_auth_failure_policy_witness :
    ("bad" ≠ "" ∧ vfEx "bad" = none)
    ∧ (CallSignal.handleMessage vfEx csBase 1 (CallSignal.In.authenticate none)
        = (csBase, [(1, CallSignal.Out.errorMsg "Token is required for authentication")])
      ∧ CallSignal.handleMessage vfEx csBase 1 (CallSignal.In.authenticate (some "bad"))
        = (csBase, [(1, CallSignal.Out.errorMsg "Invalid token")])
      ∧ (((ChatWS.handleMessage vfEx chatBase 0 (ChatWS.In.authenticate none)).1.socks 0).readyState
          = wsCLOSING
        ∧ (ChatWS.handleMessage vfEx chatBase 0 (ChatWS.In.authenticate none)).2 = [])
      ∧ ChatWS.handleMessage vfEx chatBase 0 (ChatWS.In.authenticate (some "bad"))
        = (chatBase, [])) :=
  ⟨⟨by decide, by decide⟩,
   c8_auth_failure_policy vfEx csBase chatBase 1 0 "bad" (by decide) (by decide)⟩

/-- **C8** counterexample: in the chat variant a missing token closes the
connection while a token that fails verification leaves it open with no
envelope — two different outcomes for two failure kinds within the same
variant, contrary to the claim. -/
theorem c8_counterexample :
    ((ChatWS.handleMessage vfEx chatBase 0 (ChatWS.In.authenticate none)).1.socks 0).readyState
      = wsCLOSING
    ∧ ((ChatWS.handleMessage vfEx chatBase 0 (ChatWS.In.authenticate (some "bad"))).1.socks 0).readyState
      = wsOPEN
    ∧ (ChatWS.handleMessage vfEx chatBase 0 (ChatWS.In.authenticate (some "bad"))).2 = [] := by
  refine ⟨by decide, by decide, by decide⟩

/-- **C2** (amended): when a connection authenticates as identity `U` and an
existing registry entry for `U` has the same path, the prior connection is
closed and its registry entry removed before the new entry is inserted (so
at most one registry entry per identity — and hence per (identity, path) —
exists, the registry being keyed by identity); but the role-index entry is
removed only when the *incoming* token's role is `Client`: a prior courier
entry survives when `U` re-authenticates with a different role. -/
theorem c2_register_evicts (vf : String → Option AuthUser)
    (st : CallSignal.State) (wsId sid : Nat)
    (tk U role email p : String)
    (htk : tk ≠ "")
    (hv : vf tk = some ⟨U, role, email⟩)
    (hex : st.onlineUsers U = some (sid, p))
    (hp : p = (st.socks wsId).path) :
    (((CallSignal.handleMessage vf st wsId (CallSignal.In.authenticate (some tk))).1.socks sid).readyState
        = wsCLOSING)
    ∧ (CallSignal.handleMessage vf st wsId (CallSignal.In.authenticate (some tk))).1.onlineUsers U
        = some (wsId, (st.socks wsId).path)
    ∧ (CallSignal.handleMessage vf st wsId (CallSignal.In.authenticate (some tk))).1.onlineCouriers U
        = (if role = "Client" then some wsId else st.onlineCouriers U) := by
  unfold CallSignal.handleMessage CallSignal.authenticate
  by_cases hr : role = "Client" <;>
  by_cases hsw : sid = wsId <;>
    simp [CallSignal.In.isAuthenticate, strFalsy, htk, hv, hex, hp, hr, hsw, mset, mdel]

/-- **C2** witness: re-authenticating `U` (role `Client`) from socket 1 on
the same path evicts socket 0 and replaces both entries. -/
theorem c2_register_evicts_witness :
    ("tokUC" ≠ ""
      ∧ vfEx "tokUC" = some ⟨"U", "Client", "u"⟩
      ∧ csBase.onlineUsers "U" = some (0, "/chat")
      ∧ "/chat" = (csBase.socks 1).path)
    ∧ ((((CallSignal.handleMessage vfEx csBase 1 (CallSignal.In.authenticate (some "tokUC"))).1.socks 0).readyState
          = wsCLOSING)
      ∧ (CallSignal.handleMessage vfEx csBase 1 (CallSignal.In.authenticate (some "tokUC"))).1.onlineUsers "U"
          = some (1, (csBase.socks 1).path)
      ∧ (CallSignal.handleMessage vfEx csBase 1 (CallSignal.In.authenticate (some "tokUC"))).1.onlineCouriers "U"
          = (if "Client" = "Client" then some 1 else csBase.onlineCouriers "U")) :=
  ⟨⟨by decide, by decide, by decide, by decide⟩,
   c2_register_evicts vfEx csBase 1 0 "tokUC" "U" "Client" "u" "/chat"
     (by decide) (by decide) (by decide) (by decide)⟩

/-- **C2** counterexample: socket 0 holds `U`'s registry *and* courier
entries on path `"/chat"`; socket 1 authenticates as `U` with role `Host` on
the same path. The prior connection is closed and the registry entry
replaced, but `U`'s role-index (courier) entry is *not* removed — it still
points at the evicted socket 0 — because the removal is keyed to the
incoming token's role, contrary to the claim. -/
theorem c2_counterexample :
    ((CallSignal.handleMessage vfEx csBase 1 (CallSignal.In.authenticate (some "tokU"))).1.onlineUsers "U"
        = some (1, "/chat"))
    ∧ (((CallSignal.handleMessage vfEx csBase 1 (CallSignal.In.authenticate (some "tokU"))).1.socks 0).readyState
        = wsCLOSING)
    ∧ ((CallSignal.handleMessage vfEx csBase 1 (CallSignal.In.authenticate (some "tokU"))).1.onlineCouriers "U"
        = some 0) :=
  ⟨by decide, by decide, by decide⟩

/-- **C5** (amended): on every successful authenticate (token identity `V`,
whether or not the socket already carried an identity) and every close of a
connection carrying a truthy identity `U`, a `userStatus` envelope with
`isOnline` matching the transition direction is sent to every client whose
readyState is open — `broadcastToAll` does *not* exclude the transitioning
connection: on authenticate the authenticating socket (being open) receives
its own `userStatus` broadcast; on close the closing socket misses it only
because it is closed and removed from `wss.clients`. -/
theorem c5_presence_broadcast (vf : String → Option AuthUser)
    (st : ChatWS.State) (wsId : Nat) (tk V r e U : String)
    (hnd : st.clients.Nodup)
    (htk : tk ≠ "") (hv : vf tk = some ⟨V, r, e⟩) :
    (ChatWS.handleMessage vf st wsId (ChatWS.In.authenticate (some tk))).2
      = (st.clients.filter (fun c => (st.socks c).readyState = wsOPEN)).map
          (fun c => (c, ChatWS.Out.userStatus V true))
    ∧ ((st.socks wsId).userId = some U → U ≠ "" →
      (ChatWS.closeSock st wsId).2
        = ((st.clients.erase wsId).filter (fun c => (st.socks c).readyState = wsOPEN)).map
            (fun c => (c, ChatWS.Out.userStatus U false))) := by
  constructor
  · have hfil : ∀ c ∈ st.clients,
        (decide ((if c = wsId then
            ({ userId := some V, readyState := (st.socks wsId).readyState } : ChatWS.Sock)
          else st.socks c).readyState = wsOPEN))
          = decide ((st.socks c).readyState = wsOPEN) := by
      intro c _
      by_cases hc : c = wsId <;> simp [hc]
    unfold ChatWS.handleMessage ChatWS.broadcastToAll
    simp [strFalsy, htk, hv, List.filter_congr hfil]
  · intro hU hUne
    have hfil : ∀ c ∈ st.clients.erase wsId,
        (decide ((if c = wsId then
            ({ userId := some U, readyState := wsCLOSED } : ChatWS.Sock)
          else st.socks c).readyState = wsOPEN))
          = decide ((st.socks c).readyState = wsOPEN) := by
      intro c hc
      have hne : c ≠ wsId := ((List.Nodup.mem_erase_iff hnd).mp hc).1
      simp [hne]
    unfold ChatWS.closeSock ChatWS.broadcastToAll
    simp [hU, strFalsy, hUne, List.filter_congr hfil]

/-- **C5** witness: a *first-time* authentication on the unauthenticated
socket 0 of `chatBase` broadcasts `userStatus ("U", true)` to all open
clients (socket 0 itself included), and the close of socket 0 of
`chatAuthed` (stored identity `"A"`) broadcasts `userStatus ("A", false)` to
exactly the remaining open clients. -/
theorem c5_presence_broadcast_witness :
    (chatBase.clients.Nodup ∧ "tokU" ≠ "" ∧ vfEx "tokU" = some ⟨"U", "Host", "u"⟩
      ∧ chatAuthed.clients.Nodup
      ∧ (chatAuthed.socks 0).userId = some "A" ∧ "A" ≠ "")
    ∧ ((ChatWS.handleMessage vfEx chatBase 0 (ChatWS.In.authenticate (some "tokU"))).2
        = (chatBase.clients.filter (fun c => (chatBase.socks c).readyState = wsOPEN)).map
            (fun c => (c, ChatWS.Out.userStatus "U" true))
      ∧ (ChatWS.closeSock chatAuthed 0).2
        = ((chatAuthed.clients.erase 0).filter (fun c => (chatAuthed.socks c).readyState = wsOPEN)).map
            (fun c => (c, ChatWS.Out.userStatus "A" false))) :=
  ⟨⟨by decide, by decide, by decide, by decide, by decide, by decide⟩,
   ⟨(c5_presence_broadcast vfEx chatBase 0 "tokU" "U" "Host" "u" "A"
       (by decide) (by decide) (by decide)).1,
    (c5_presence_broadcast vfEx chatAuthed 0 "tokU" "U" "Host" "u" "A"
       (by decide) (by decide) (by decide)).2 (by decide) (by decide)⟩⟩

/-- **C5** counterexample: when socket 0 authenticates, the very connection
that is transitioning receives the `userStatus` broadcast about itself —
contrary to the claim that the broadcast reaches every open connection
*except* the one transitioning. -/
theorem c5_counterexample :
    (0, ChatWS.Out.userStatus "U" true)
      ∈ (ChatWS.handleMessage vfEx chatBase 0 (ChatWS.In.authenticate (some "tokU"))).2 := by
  decide

/-- **C6**: for a `callUser` event from an authenticated connection (outside
the driver-location path), the handler's sends are exactly the source's
check chain — role violation before callType validation before target
availability; an `incomingCall` envelope is relayed iff the caller's role is
`Client`, the callType is `audio` or `video`, and the target is registered,
open and has role `Host`; otherwise exactly one error envelope goes to the
caller and no `incomingCall` is relayed. State is never mutated. -/
theorem c6_callUser_relay (vf : String → Option AuthUser)
    (st : CallSignal.State) (wsId : Nat) (A toU offer : String) (ct : Option String)
    (hA : (st.socks wsId).userId = some A) (hAne : A ≠ "")
    (hpath : (st.socks wsId).path ≠ "/driver-location") :
    CallSignal.handleMessage vf st wsId (CallSignal.In.callUser toU offer ct)
      = (st,
         if (st.socks wsId).userRole ≠ some "Client" then
           [(wsId, CallSignal.Out.errorMsg "Only Client can initiate a call.")]
         else if strFalsy ct ∨ (ct ≠ some "audio" ∧ ct ≠ some "video") then
           [(wsId, CallSignal.Out.errorMsg "Invalid or missing callType. Must be audio or video.")]
         else
           match st.onlineUsers toU with
           | some (rid, _) =>
             if (st.socks rid).readyState = wsOPEN ∧ (st.socks rid).userRole = some "Host" then
               [(rid, CallSignal.Out.incomingCall A offer (ct.getD ""))]
             else [(wsId, CallSignal.Out.errorMsg "Host not available or invalid recipient.")]
           | none => [(wsId, CallSignal.Out.errorMsg "Host not available or invalid recipient.")])
    ∧ (((st.socks wsId).userRole = some "Client"
        ∧ (ct = some "audio" ∨ ct = some "video")
        ∧ ∃ rid p, st.onlineUsers toU = some (rid, p)
            ∧ (st.socks rid).readyState = wsOPEN ∧ (st.socks rid).userRole = some "Host")
      ↔ ∃ rid, (rid, CallSignal.Out.incomingCall A offer (ct.getD ""))
          ∈ (CallSignal.handleMessage vf st wsId (CallSignal.In.callUser toU offer ct)).2)
    ∧ (¬ ((st.socks wsId).userRole = some "Client"
        ∧ (ct = some "audio" ∨ ct = some "video")
        ∧ ∃ rid p, st.onlineUsers toU = some (rid, p)
            ∧ (st.socks rid).readyState = wsOPEN ∧ (st.socks rid).userRole = some "Host")
      → ∃ emsg, (CallSignal.handleMessage vf st wsId (CallSignal.In.callUser toU offer ct)).2
          = [(wsId, CallSignal.Out.errorMsg emsg)]) := by
  have heq : CallSignal.handleMessage vf st wsId (CallSignal.In.callUser toU offer ct)
      = (st, CallSignal.handleParcelChatMessage st wsId (CallSignal.In.callUser toU offer ct)) := by
    unfold CallSignal.handleMessage
    simp [CallSignal.In.isAuthenticate, strFalsy, hA, hAne, hpath]
  have hbody : CallSignal.handleParcelChatMessage st wsId (CallSignal.In.callUser toU offer ct)
      = (if (st.socks wsId).userRole ≠ some "Client" then
           [(wsId, CallSignal.Out.errorMsg "Only Client can initiate a call.")]
         else if strFalsy ct ∨ (ct ≠ some "audio" ∧ ct ≠ some "video") then
           [(wsId, CallSignal.Out.errorMsg "Invalid or missing callType. Must be audio or video.")]
         else
           match st.onlineUsers toU with
           | some (rid, _) =>
             if (st.socks rid).readyState = wsOPEN ∧ (st.socks rid).userRole = some "Host" then
               [(rid, CallSignal.Out.incomingCall A offer (ct.getD ""))]
             else [(wsId, CallSignal.Out.errorMsg "Host not available or invalid recipient.")]
           | none => [(wsId, CallSignal.Out.errorMsg "Host not available or invalid recipient.")]) := by
    unfold CallSignal.handleParcelChatMessage
    simp [hA]
  refine ⟨by rw [heq, hbody], ?_, ?_⟩
  · rw [heq, hbody]
    by_cases h1 : (st.socks wsId).userRole = some "Client"
    · by_cases h2 : ct = some "audio" ∨ ct = some "video"
      · have hctF : (strFalsy ct ∨ (ct ≠ some "audio" ∧ ct ≠ some "video")) = False := by
          rcases h2 with h2 | h2 <;> subst h2 <;> simp [strFalsy]
        rcases hon : st.onlineUsers toU with _ | ⟨rid, p⟩
        · simp [h1, h2, hctF, hon]
        · by_cases hready : (st.socks rid).readyState = wsOPEN ∧ (st.socks rid).userRole = some "Host"
          · simp [h1, h2, hctF, hon, hready]
          · simp [h1, h2, hctF, hon, hready]
      · have h2' := h2
        push_neg at h2'
        simp [h1, h2, h2'.1, h2'.2]
    · simp [h1]
  · intro hn
    rw [heq, hbody]
    by_cases h1 : (st.socks wsId).userRole = some "Client"
    · by_cases h2 : ct = some "audio" ∨ ct = some "video"
      · have hctF : (strFalsy ct ∨ (ct ≠ some "audio" ∧ ct ≠ some "video")) = False := by
          rcases h2 with h2 | h2 <;> subst h2 <;> simp [strFalsy]
        rcases hon : st.onlineUsers toU with _ | ⟨rid, p⟩
        · exact ⟨"Host not available or invalid recipient.", by simp [h1, hctF, hon]⟩
        · by_cases hready : (st.socks rid).readyState = wsOPEN ∧ (st.socks rid).userRole = some "Host"
          · exact absurd ⟨h1, h2, rid, p, hon, hready.1, hready.2⟩ hn
          · exact ⟨"Host not available or invalid recipient.", by simp [h1, hctF, hon, hready]⟩
      · have h2' := h2
        push_neg at h2'
        exact ⟨"Invalid or missing callType. Must be audio or video.", by simp [h1, h2'.1, h2'.2]⟩
    · exact ⟨"Only Client can initiate a call.", by simp [h1]⟩

/-- **C6** witness: socket 0 of `csBase` (role `Client`) calls `"U"` with an
`audio` offer; the target is registered but has role `Client`, so the call
is answered with the availability error. -/
theorem c6_callUser_relay_witness :
    ((csBase.socks 0).userId = some "U" ∧ "U" ≠ ""
      ∧ (csBase.socks 0).path ≠ "/driver-location")
    ∧ (CallSignal.handleMessage vfEx csBase 0 (CallSignal.In.callUser "U" "o" (some "audio"))
        = (csBase,
           if (csBase.socks 0).userRole ≠ some "Client" then
             [(0, CallSignal.Out.errorMsg "Only Client can initiate a call.")]
           else if strFalsy (some "audio")
               ∨ ((some "audio" : Option String) ≠ some "audio"
                  ∧ (some "audio" : Option String) ≠ some "video") then
             [(0, CallSignal.Out.errorMsg "Invalid or missing callType. Must be audio or video.")]
           else
             match csBase.onlineUsers "U" with
             | some (rid, _) =>
               if (csBase.socks rid).readyState = wsOPEN
                   ∧ (csBase.socks rid).userRole = some "Host" then
                 [(rid, CallSignal.Out.incomingCall "U" "o" ((some "audio" : Option String).getD ""))]
               else [(0, CallSignal.Out.errorMsg "Host not available or invalid recipient.")]
             | none => [(0, CallSignal.Out.errorMsg "Host not available or invalid recipient.")])
      ∧ (((csBase.socks 0).userRole = some "Client"
          ∧ ((some "audio" : Option String) = some "audio"
             ∨ (some "audio" : Option String) = some "video")
          ∧ ∃ rid p, csBase.onlineUsers "U" = some (rid, p)
              ∧ (csBase.socks rid).readyState = wsOPEN
              ∧ (csBase.socks rid).userRole = some "Host")
        ↔ ∃ rid, (rid, CallSignal.Out.incomingCall "U" "o" ((some "audio" : Option String).getD ""))
            ∈ (CallSignal.handleMessage vfEx csBase 0 (CallSignal.In.callUser "U" "o" (some "audio"))).2)
      ∧ (¬ ((csBase.socks 0).userRole = some "Client"
          ∧ ((some "audio" : Option String) = some "audio"
             ∨ (some "audio" : Option String) = some "video")
          ∧ ∃ rid p, csBase.onlineUsers "U" = some (rid, p)
              ∧ (csBase.socks rid).readyState = wsOPEN
              ∧ (csBase.socks rid).userRole = some "Host")
        → ∃ emsg, (CallSignal.handleMessage vfEx csBase 0 (CallSignal.In.callUser "U" "o" (some "audio"))).2
            = [(0, CallSignal.Out.errorMsg emsg)])) :=
  ⟨⟨by decide, by decide, by decide⟩,
   c6_callUser_relay vfEx csBase 0 "U" "U" "o" (some "audio")
     (by decide) (by decide) (by decide)⟩

/-- **C3**: a `message` event from an authenticated sender `A` with truthy
`receiverId B` and non-empty `message`, when no Room pairs `(A,B)` in either
orientation, appends exactly one Room and exactly one Chat to the store,
sends the chat envelope to `B`'s registered socket iff that socket is open,
and always echoes the chat envelope to `A` last. -/
theorem c3_first_message (vf : String → Option AuthUser)
    (st : ChatWS.State) (wsId : Nat) (A B m : String) (imgs : Option (List String))
    (hA : (st.socks wsId).userId = some A) (hAne : A ≠ "")
    (hBne : B ≠ "") (hmne : m ≠ "")
    (hnoroom : ∀ r ∈ st.rooms, ChatWS.roomMatches A B r = false) :
    ((ChatWS.handleMessage vf st wsId (ChatWS.In.message (some B) (some m) imgs)).1.rooms
        = st.rooms ++ [⟨st.nextRoomId, A, B⟩])
    ∧ ((ChatWS.handleMessage vf st wsId (ChatWS.In.message (some B) (some m) imgs)).1.chats
        = st.chats ++ [⟨st.nextChatId, A, B, st.nextRoomId, m, imgs.getD [], false⟩])
    ∧ ((ChatWS.handleMessage vf st wsId (ChatWS.In.message (some B) (some m) imgs)).2
        = (match st.userSockets B with
           | some s =>
             if (st.socks s).readyState = wsOPEN then
               [(s, ChatWS.Out.chatMsg ⟨st.nextChatId, A, B, st.nextRoomId, m, imgs.getD [], false⟩)]
             else []
           | none => [])
          ++ [(wsId, ChatWS.Out.chatMsg ⟨st.nextChatId, A, B, st.nextRoomId, m, imgs.getD [], false⟩)])
    ∧ (wsId, ChatWS.Out.chatMsg ⟨st.nextChatId, A, B, st.nextRoomId, m, imgs.getD [], false⟩)
        ∈ (ChatWS.handleMessage vf st wsId (ChatWS.In.message (some B) (some m) imgs)).2 := by
  have hfind : ChatWS.findRoom st A B = none := by
    unfold ChatWS.findRoom
    exact List.find?_eq_none.mpr (fun r hr => by simp [hnoroom r hr])
  unfold ChatWS.handleMessage
  refine ⟨?_, ?_, ?_, ?_⟩ <;>
    simp [strFalsy, hA, hAne, hBne, hmne, hfind]

/-- **C3** witness: first message from `"A"` (socket 0) to `"B"`
(socket 1, online and open) on an empty store. -/
theorem c3_first_message_witness :
    ((chatAuthed.socks 0).userId = some "A" ∧ "A" ≠ "" ∧ "B" ≠ "" ∧ "hi" ≠ ""
      ∧ ∀ r ∈ chatAuthed.rooms, ChatWS.roomMatches "A" "B" r = false)
    ∧ (((ChatWS.handleMessage vfEx chatAuthed 0 (ChatWS.In.message (some "B") (some "hi") none)).1.rooms
          = chatAuthed.rooms ++ [⟨chatAuthed.nextRoomId, "A", "B"⟩])
      ∧ ((ChatWS.handleMessage vfEx chatAuthed 0 (ChatWS.In.message (some "B") (some "hi") none)).1.chats
          = chatAuthed.chats
            ++ [⟨chatAuthed.nextChatId, "A", "B", chatAuthed.nextRoomId, "hi", (none : Option (List String)).getD [], false⟩])
      ∧ ((ChatWS.handleMessage vfEx chatAuthed 0 (ChatWS.In.message (some "B") (some "hi") none)).2
          = (match chatAuthed.userSockets "B" with
             | some s =>
               if (chatAuthed.socks s).readyState = wsOPEN then
                 [(s, ChatWS.Out.chatMsg ⟨chatAuthed.nextChatId, "A", "B", chatAuthed.nextRoomId, "hi", (none : Option (List String)).getD [], false⟩)]
               else []
             | none => [])
            ++ [(0, ChatWS.Out.chatMsg ⟨chatAuthed.nextChatId, "A", "B", chatAuthed.nextRoomId, "hi", (none : Option (List String)).getD [], false⟩)])
      ∧ (0, ChatWS.Out.chatMsg ⟨chatAuthed.nextChatId, "A", "B", chatAuthed.nextRoomId, "hi", (none : Option (List String)).getD [], false⟩)
          ∈ (ChatWS.handleMessage vfEx chatAuthed 0 (ChatWS.In.message (some "B") (some "hi") none)).2) :=
  ⟨⟨by decide, by decide, by decide, by decide, by decide⟩,
   c3_first_message vfEx chatAuthed 0 "A" "B" "hi" none
     (by decide) (by decide) (by decide) (by decide) (by decide)⟩

/-- **C4**: after `subscribeToLocation(U→T)` (subscriber socket `u`,
target identity `T` with no prior subscribers), a `locationUpdate` from `T`'s
socket with lat 10, lng 20 is fanned out to exactly one connection — `u`,
with envelope `locationUpdate (T, 10, 20)`; after `u` closes, the same
update from `T` is delivered to zero connections. -/
theorem c4_subscribe_update_close (vf : String → Option AuthUser)
    (st : ChatWS.State) (u t : Nat) (U T : String)
    (hut : u ≠ t)
    (hU : (st.socks u).userId = some U) (hUne : U ≠ "")
    (hT : (st.socks t).userId = some T) (hTne : T ≠ "")
    (hopen : (st.socks u).readyState = wsOPEN)
    (hsubs : st.locationSubscribers T = []) :
    ((ChatWS.handleMessage vf
        (ChatWS.handleMessage vf st u (ChatWS.In.subscribeToLocation (some T))).1
        t (ChatWS.In.locationUpdate (some 10) (some 20))).2
      = [(u, ChatWS.Out.locationUpdate T 10 20)])
    ∧ ((ChatWS.handleMessage vf
        (ChatWS.closeSock
          (ChatWS.handleMessage vf st u (ChatWS.In.subscribeToLocation (some T))).1 u).1
        t (ChatWS.In.locationUpdate (some 10) (some 20))).2
      = []) := by
  have hst1 : (ChatWS.handleMessage vf st u (ChatWS.In.subscribeToLocation (some T))).1
      = { st with locationSubscribers := fun x =>
            if x = T then setAdd (st.locationSubscribers T) u
            else st.locationSubscribers x } := by
    unfold ChatWS.handleMessage
    simp [strFalsy, hU, hUne, hTne]
  rw [hst1]
  constructor
  · unfold ChatWS.handleMessage
    simp [strFalsy, hT, hTne, hsubs, setAdd, hopen]
  · unfold ChatWS.closeSock
    simp only [hU, strFalsy, hUne]
    unfold ChatWS.handleMessage
    simp [strFalsy, hT, hTne, hsubs, setAdd, hut, Ne.symm hut, hU, hUne]

/-- **C4** witness: socket 0 (`"A"`) subscribes to `"B"` (socket 1); `"B"`'s
update reaches exactly socket 0; after socket 0 closes it reaches nobody. -/
theorem c4_subscribe_update_close_witness :
    ((0 : Nat) ≠ 1
      ∧ (chatAuthed.socks 0).userId = some "A" ∧ "A" ≠ ""
      ∧ (chatAuthed.socks 1).userId = some "B" ∧ "B" ≠ ""
      ∧ (chatAuthed.socks 0).readyState = wsOPEN
      ∧ chatAuthed.locationSubscribers "B" = [])
    ∧ (((ChatWS.handleMessage vfEx
          (ChatWS.handleMessage vfEx chatAuthed 0 (ChatWS.In.subscribeToLocation (some "B"))).1
          1 (ChatWS.In.locationUpdate (some 10) (some 20))).2
        = [(0, ChatWS.Out.locationUpdate "B" 10 20)])
      ∧ ((ChatWS.handleMessage vfEx
          (ChatWS.closeSock
            (ChatWS.handleMessage vfEx chatAuthed 0 (ChatWS.In.subscribeToLocation (some "B"))).1 0).1
          1 (ChatWS.In.locationUpdate (some 10) (some 20))).2
        = [])) :=
  ⟨⟨by decide, by decide, by decide, by decide, by decide, by decide, by decide⟩,
   c4_subscribe_update_close vfEx chatAuthed 0 1 "A" "B"
     (by decide) (by decide) (by decide) (by decide) (by decide) (by decide) (by decide)⟩

/-- Projections of a successful chat-variant `authenticate`: clients are
untouched, only the authenticating socket's `userId` changes, the identity
is registered in `userSockets` and marked online. -/
theorem authProj (vf : String → Option AuthUser) (st : ChatWS.State) (wsId : Nat)
    (tk : String) (u : AuthUser) (htk : tk ≠ "") (hv : vf tk = some u) :
    ((ChatWS.handleMessage vf st wsId (ChatWS.In.authenticate (some tk))).1.clients = st.clients)
    ∧ (∀ x, (ChatWS.handleMessage vf st wsId (ChatWS.In.authenticate (some tk))).1.socks x
        = if x = wsId then { st.socks wsId with userId := some u.id } else st.socks x)
    ∧ ((ChatWS.handleMessage vf st wsId (ChatWS.In.authenticate (some tk))).1.userSockets
        = mset st.userSockets u.id wsId)
    ∧ (∀ v, (ChatWS.handleMessage vf st wsId (ChatWS.In.authenticate (some tk))).1.onlineUsers v
        = if v = u.id then true else st.onlineUsers v) := by
  unfold ChatWS.handleMessage
  simp [strFalsy, htk, hv]

/-- Projections of the chat-variant close handler for a socket carrying a
truthy identity `U`: the socket is closed and unlisted, `U` is deregistered
and marked offline, and the offline `userStatus` broadcast reaches every
remaining listed socket that is open. -/
theorem closeProj (st : ChatWS.State) (wsId : Nat) (U : String)
    (hU : (st.socks wsId).userId = some U) (hUne : U ≠ "") :
    ((ChatWS.closeSock st wsId).1.clients = st.clients.erase wsId)
    ∧ (∀ x, (ChatWS.closeSock st wsId).1.socks x
        = if x = wsId then { st.socks wsId with readyState := wsCLOSED } else st.socks x)
    ∧ ((ChatWS.closeSock st wsId).1.userSockets = mdel st.userSockets U)
    ∧ (∀ v, (ChatWS.closeSock st wsId).1.onlineUsers v = if v = U then false else st.onlineUsers v)
    ∧ (∀ c, c ∈ st.clients.erase wsId → c ≠ wsId → (st.socks c).readyState = wsOPEN →
        (c, ChatWS.Out.userStatus U false) ∈ (ChatWS.closeSock st wsId).2) := by
  refine ⟨?_, ?_, ?_, ?_, ?_⟩
  · unfold ChatWS.closeSock
    simp [strFalsy, hU, hUne]
  · intro x
    unfold ChatWS.closeSock
    simp [strFalsy, hU, hUne]
  · unfold ChatWS.closeSock
    simp [strFalsy, hU, hUne]
  · intro v
    unfold ChatWS.closeSock
    simp [strFalsy, hU, hUne]
  · intro c hc hcne hopen
    unfold ChatWS.closeSock ChatWS.broadcastToAll
    simp [strFalsy, hU, hUne]
    refine ⟨hc, ?_⟩
    simp [hcne, hopen]

/-- **C10**: in the chat/location variant, authenticate never closes or
evicts a prior connection (readyStates of all sockets are untouched by the
two authentications), and close-time cleanup is keyed only by identity: with
`c1` authenticated as `U` and `c2` later authenticated as `U` (so the
registry maps `U` to `c2`), `c1`'s close deletes `U`'s `userSockets` and
`onlineUsers` entries — deregistering the still-open `c2` — and broadcasts
`userStatus (U, false)`, which the still-connected `c2` itself receives. -/
theorem c10_close_keyed_by_identity (vf : String → Option AuthUser)
    (st : ChatWS.State) (c1 c2 : Nat) (t1 t2 U r1 e1 r2 e2 : String)
    (hne : c1 ≠ c2)
    (hc2m : c2 ∈ st.clients)
    (ht1 : t1 ≠ "") (ht2 : t2 ≠ "") (hUne : U ≠ "")
    (hv1 : vf t1 = some ⟨U, r1, e1⟩) (hv2 : vf t2 = some ⟨U, r2, e2⟩)
    (hopen2 : (st.socks c2).readyState = wsOPEN) :
    (∀ x, (((ChatWS.handleMessage vf
        (ChatWS.handleMessage vf st c1 (ChatWS.In.authenticate (some t1))).1
        c2 (ChatWS.In.authenticate (some t2))).1.socks x).readyState
      = (st.socks x).readyState))
    ∧ ((ChatWS.handleMessage vf
        (ChatWS.handleMessage vf st c1 (ChatWS.In.authenticate (some t1))).1
        c2 (ChatWS.In.authenticate (some t2))).1.userSockets U = some c2)
    ∧ ((ChatWS.closeSock
        (ChatWS.handleMessage vf
          (ChatWS.handleMessage vf st c1 (ChatWS.In.authenticate (some t1))).1
          c2 (ChatWS.In.authenticate (some t2))).1 c1).1.userSockets U = none)
    ∧ ((ChatWS.closeSock
        (ChatWS.handleMessage vf
          (ChatWS.handleMessage vf st c1 (ChatWS.In.authenticate (some t1))).1
          c2 (ChatWS.In.authenticate (some t2))).1 c1).1.onlineUsers U = false)
    ∧ (((ChatWS.closeSock
        (ChatWS.handleMessage vf
          (ChatWS.handleMessage vf st c1 (ChatWS.In.authenticate (some t1))).1
          c2 (ChatWS.In.authenticate (some t2))).1 c1).1.socks c2).readyState = wsOPEN)
    ∧ (c2 ∈ (ChatWS.closeSock
        (ChatWS.handleMessage vf
          (ChatWS.handleMessage vf st c1 (ChatWS.In.authenticate (some t1))).1
          c2 (ChatWS.In.authenticate (some t2))).1 c1).1.clients)
    ∧ ((c2, ChatWS.Out.userStatus U false) ∈ (ChatWS.closeSock
        (ChatWS.handleMessage vf
          (ChatWS.handleMessage vf st c1 (ChatWS.In.authenticate (some t1))).1
          c2 (ChatWS.In.authenticate (some t2))).1 c1).2) := by
  obtain ⟨hAcl, hAso, hAus, hAou⟩ := authProj vf st c1 t1 ⟨U, r1, e1⟩ ht1 hv1
  obtain ⟨hBcl, hBso, hBus, hBou⟩ :=
    authProj vf (ChatWS.handleMessage vf st c1 (ChatWS.In.authenticate (some t1))).1
      c2 t2 ⟨U, r2, e2⟩ ht2 hv2
  have hrs : ∀ x, (((ChatWS.handleMessage vf
      (ChatWS.handleMessage vf st c1 (ChatWS.In.authenticate (some t1))).1
      c2 (ChatWS.In.authenticate (some t2))).1.socks x).readyState
      = (st.socks x).readyState) := by
    intro x
    rw [hBso x]
    by_cases hx2 : x = c2
    · subst hx2
      rw [hAso x]
      simp [Ne.symm hne]
    · rw [if_neg hx2, hAso x]
      by_cases hx1 : x = c1 <;> simp [hx1]
  have hc1U : ((ChatWS.handleMessage vf
      (ChatWS.handleMessage vf st c1 (ChatWS.In.authenticate (some t1))).1
      c2 (ChatWS.In.authenticate (some t2))).1.socks c1).userId = some U := by
    rw [hBso c1, if_neg hne, hAso c1]
    simp
  obtain ⟨hCcl, hCso, hCus, hCou, hCmem⟩ :=
    closeProj (ChatWS.handleMessage vf
      (ChatWS.handleMessage vf st c1 (ChatWS.In.authenticate (some t1))).1
      c2 (ChatWS.In.authenticate (some t2))).1 c1 U hc1U hUne
  have hBclients : (ChatWS.handleMessage vf
      (ChatWS.handleMessage vf st c1 (ChatWS.In.authenticate (some t1))).1
      c2 (ChatWS.In.authenticate (some t2))).1.clients = st.clients := by
    rw [hBcl, hAcl]
  have hc2erase : c2 ∈ (ChatWS.handleMessage vf
      (ChatWS.handleMessage vf st c1 (ChatWS.In.authenticate (some t1))).1
      c2 (ChatWS.In.authenticate (some t2))).1.clients.erase c1 := by
    rw [hBclients]
    exact (List.mem_erase_of_ne (Ne.symm hne)).mpr hc2m
  refine ⟨hrs, ?_, ?_, ?_, ?_, ?_, ?_⟩
  · rw [hBus]
    simp [mset]
  · rw [hCus]
    simp [mdel]
  · rw [hCou U]
    simp
  · rw [hCso c2, if_neg (Ne.symm hne)]
    rw [hrs c2]
    exact hopen2
  · rw [hCcl]
    exact hc2erase
  · exact hCmem c2 hc2erase (Ne.symm hne) (by rw [hrs c2]; exact hopen2)

/-- **C10** witness: sockets 0 and 1 of `chatBase` both authenticate as
`"U"` (socket 0 first); socket 0's close deregisters `"U"` while socket 1 is
still open, and socket 1 receives the offline broadcast. -/
theorem c10_close_keyed_by_identity_witness :
    ((0 : Nat) ≠ 1 ∧ 1 ∈ chatBase.clients
      ∧ "tokU" ≠ "" ∧ "tokUC" ≠ "" ∧ "U" ≠ ""
      ∧ vfEx "tokU" = some ⟨"U", "Host", "u"⟩
      ∧ vfEx "tokUC" = some ⟨"U", "Client", "u"⟩
      ∧ (chatBase.socks 1).readyState = wsOPEN)
    ∧ ((((ChatWS.handleMessage vfEx
          (ChatWS.handleMessage vfEx chatBase 0 (ChatWS.In.authenticate (some "tokU"))).1
          1 (ChatWS.In.authenticate (some "tokUC"))).1.socks 0).readyState
        = (chatBase.socks 0).readyState)
      ∧ ((ChatWS.handleMessage vfEx
          (ChatWS.handleMessage vfEx chatBase 0 (ChatWS.In.authenticate (some "tokU"))).1
          1 (ChatWS.In.authenticate (some "tokUC"))).1.userSockets "U" = some 1)
      ∧ ((ChatWS.closeSock
          (ChatWS.handleMessage vfEx
            (ChatWS.handleMessage vfEx chatBase 0 (ChatWS.In.authenticate (some "tokU"))).1
            1 (ChatWS.In.authenticate (some "tokUC"))).1 0).1.userSockets "U" = none)
      ∧ ((ChatWS.closeSock
          (ChatWS.handleMessage vfEx
            (ChatWS.handleMessage vfEx chatBase 0 (ChatWS.In.authenticate (some "tokU"))).1
            1 (ChatWS.In.authenticate (some "tokUC"))).1 0).1.onlineUsers "U" = false)
      ∧ (((ChatWS.closeSock
          (ChatWS.handleMessage vfEx
            (ChatWS.handleMessage vfEx chatBase 0 (ChatWS.In.authenticate (some "tokU"))).1
            1 (ChatWS.In.authenticate (some "tokUC"))).1 0).1.socks 1).readyState = wsOPEN)
      ∧ (1 ∈ (ChatWS.closeSock
          (ChatWS.handleMessage vfEx
            (ChatWS.handleMessage vfEx chatBase 0 (ChatWS.In.authenticate (some "tokU"))).1
            1 (ChatWS.In.authenticate (some "tokUC"))).1 0).1.clients)
      ∧ ((1, ChatWS.Out.userStatus "U" false) ∈ (ChatWS.closeSock
          (ChatWS.handleMessage vfEx
            (ChatWS.handleMessage vfEx chatBase 0 (ChatWS.In.authenticate (some "tokU"))).1
            1 (ChatWS.In.authenticate (some "tokUC"))).1 0).2)) :=
  ⟨⟨by decide, by decide, by decide, by decide, by decide, by decide, by decide, by decide⟩,
   let H := c10_close_keyed_by_identity vfEx chatBase 0 1 "tokU" "tokUC" "U" "Host" "u" "Client" "u"
     (by decide) (by decide) (by decide) (by decide) (by decide)
     (by decide) (by decide) (by decide)
   ⟨H.1 0, H.2.1, H.2.2.1, H.2.2.2.1, H.2.2.2.2.1, H.2.2.2.2.2.1, H.2.2.2.2.2.2⟩⟩

/-- A tick step at socket `d` does not touch the per-socket fields of any
other socket `c`. -/
theorem tickStep_socks (acc : CallSignal.State × List Nat) (d c : Nat) (hcd : c ≠ d) :
    (CallSignal.tickStep acc d).1.socks c = acc.1.socks c := by
  unfold CallSignal.tickStep
  dsimp only
  split_ifs <;> simp [hcd]

/-- A tick step at `d` keeps any other listed socket `c` listed. -/
theorem tickStep_clients_mem (acc : CallSignal.State × List Nat) (d c : Nat)
    (hcd : c ≠ d) (h : c ∈ acc.1.clients) :
    c ∈ (CallSignal.tickStep acc d).1.clients := by
  unfold CallSignal.tickStep
  dsimp only
  split_ifs <;> simp_all [List.mem_erase_of_ne hcd]

/-- A tick step never adds sockets to `wss.clients`. -/
theorem tickStep_clients_notmem (acc : CallSignal.State × List Nat) (d c : Nat)
    (h : c ∉ acc.1.clients) :
    c ∉ (CallSignal.tickStep acc d).1.clients := by
  unfold CallSignal.tickStep
  dsimp only
  split_ifs <;>
    first
    | exact fun hm => h (List.mem_of_mem_erase hm)
    | exact h

/-- A tick step preserves duplicate-freedom of `wss.clients`. -/
theorem tickStep_clients_nodup (acc : CallSignal.State × List Nat) (d : Nat)
    (h : acc.1.clients.Nodup) :
    (CallSignal.tickStep acc d).1.clients.Nodup := by
  unfold CallSignal.tickStep
  dsimp only
  split_ifs <;> first | exact h.erase d | exact h

/-- A tick step only ever deletes registry entries: an absent entry stays
absent. -/
theorem tickStep_users_none (acc : CallSignal.State × List Nat) (d : Nat) (uid : String)
    (h : acc.1.onlineUsers uid = none) :
    (CallSignal.tickStep acc d).1.onlineUsers uid = none := by
  unfold CallSignal.tickStep
  dsimp only
  split_ifs <;> simp_all [mdel]

/-- A tick step only ever deletes courier-index entries. -/
theorem tickStep_couriers_none (acc : CallSignal.State × List Nat) (d : Nat) (uid : String)
    (h : acc.1.onlineCouriers uid = none) :
    (CallSignal.tickStep acc d).1.onlineCouriers uid = none := by
  unfold CallSignal.tickStep
  dsimp only
  split_ifs <;> simp_all [mdel]

/-- A tick step only appends to the list of pinged sockets. -/
theorem tickStep_sends_mem (acc : CallSignal.State × List Nat) (d x : Nat)
    (h : x ∈ acc.2) :
    x ∈ (CallSignal.tickStep acc d).2 := by
  unfold CallSignal.tickStep
  dsimp only
  split_ifs <;> simp [h]

/-- Any property preserved by tick steps at sockets other than `c` carries
through a fold over a list avoiding `c`. -/
theorem tickFoldPres (c : Nat) (P : CallSignal.State × List Nat → Prop)
    (hP : ∀ acc d, d ≠ c → P acc → P (CallSignal.tickStep acc d)) :
    ∀ (l : List Nat), c ∉ l → ∀ acc, P acc → P (l.foldl CallSignal.tickStep acc) := by
  intro l
  induction l with
  | nil => exact fun _ acc h => h
  | cons d tl ih =>
    intro hcl acc hacc
    have hdc : d ≠ c := fun h => hcl (h ▸ List.mem_cons_self d tl)
    have hctl : c ∉ tl := fun h => hcl (List.mem_cons_of_mem d h)
    exact ih hctl _ (hP acc d hdc hacc)

/-- The tick step at a socket that missed its probe: the socket is
terminated, unlisted, and its registry and courier entries (when it carries
a truthy identity, the courier one when its role is `Client`) are removed. -/
theorem tickStep_dead (acc : CallSignal.State × List Nat) (c : Nat)
    (hdead : (acc.1.socks c).isAlive = false)
    (hnd : acc.1.clients.Nodup) :
    c ∉ (CallSignal.tickStep acc c).1.clients
    ∧ ((CallSignal.tickStep acc c).1.socks c).readyState = wsCLOSED
    ∧ (∀ uid, (acc.1.socks c).userId = some uid → uid ≠ "" →
        (CallSignal.tickStep acc c).1.onlineUsers uid = none
        ∧ ((acc.1.socks c).userRole = some "Client" →
            (CallSignal.tickStep acc c).1.onlineCouriers uid = none)) := by
  unfold CallSignal.tickStep
  dsimp only
  split_ifs with h1 h2
  · refine ⟨by simpa using hnd.not_mem_erase, by simp, ?_⟩
    intro uid huid hune
    rw [huid] at h1
    simp [strFalsy, hune] at h1
  · refine ⟨by simpa using hnd.not_mem_erase, by simp, ?_⟩
    intro uid huid hune
    refine ⟨by simp [huid, mdel], fun _ => by simp [huid, mdel]⟩
  · refine ⟨by simpa using hnd.not_mem_erase, by simp, ?_⟩
    intro uid huid hune
    refine ⟨by simp [huid, mdel], fun hrole => absurd hrole h2⟩

/-- The tick step at a socket that answered its probe: it is marked pending
(`isAlive := false`), stays listed, and is pinged. -/
theorem tickStep_live (acc : CallSignal.State × List Nat) (c : Nat)
    (hlive : (acc.1.socks c).isAlive = true) :
    (CallSignal.tickStep acc c).1.socks c = { acc.1.socks c with isAlive := false }
    ∧ (CallSignal.tickStep acc c).1.clients = acc.1.clients
    ∧ c ∈ (CallSignal.tickStep acc c).2 := by
  unfold CallSignal.tickStep
  dsimp only
  simp [hlive]

/-- **C7**: on each liveness-monitor tick (period 30000 ms), every listed
connection that did not answer the previous probe (`isAlive = false`) is
forcibly terminated, removed from `wss.clients`, and its registry and
courier-index entries are removed exactly as the close handler removes them
(registry entry for its truthy identity; courier entry when its role is
`Client`); every other listed connection is marked pending
(`isAlive := false`, all other fields untouched), stays listed, and is sent
a probe; receiving a probe response sets `isAlive` back to `true`. -/
theorem c7_liveness_tick (st : CallSignal.State) (c : Nat)
    (hnd : st.clients.Nodup) (hc : c ∈ st.clients) :
    ((st.socks c).isAlive = false →
      c ∉ (CallSignal.tick st).1.clients
      ∧ (((CallSignal.tick st).1.socks c).readyState = wsCLOSED)
      ∧ (∀ uid, (st.socks c).userId = some uid → uid ≠ "" →
          (CallSignal.tick st).1.onlineUsers uid = none
          ∧ ((st.socks c).userRole = some "Client" →
              (CallSignal.tick st).1.onlineCouriers uid = none)))
    ∧ ((st.socks c).isAlive = true →
      (CallSignal.tick st).1.socks c = { st.socks c with isAlive := false }
      ∧ c ∈ (CallSignal.tick st).1.clients
      ∧ c ∈ (CallSignal.tick st).2)
    ∧ (((CallSignal.pong st c).socks c).isAlive = true)
    ∧ CallSignal.livenessIntervalMs = 30000 := by
  obtain ⟨l1, l2, hsplit⟩ := List.append_of_mem hc
  have hnl : (l1 ++ c :: l2).Nodup := by rw [← hsplit]; exact hnd
  have hc_l1 : c ∉ l1 := fun h => (List.nodup_append.mp hnl).2.2 h (List.mem_cons_self c l2)
  have hc_l2 : c ∉ l2 := (List.nodup_cons.mp (List.nodup_append.mp hnl).2.1).1
  have htick : CallSignal.tick st
      = l2.foldl CallSignal.tickStep
          (CallSignal.tickStep (l1.foldl CallSignal.tickStep (st, [])) c) := by
    unfold CallSignal.tick
    rw [hsplit, List.foldl_append, List.foldl_cons]
  have hacc1 : (l1.foldl CallSignal.tickStep (st, [])).1.socks c = st.socks c
      ∧ c ∈ (l1.foldl CallSignal.tickStep (st, [])).1.clients
      ∧ (l1.foldl CallSignal.tickStep (st, [])).1.clients.Nodup := by
    refine tickFoldPres c
      (fun acc => acc.1.socks c = st.socks c ∧ c ∈ acc.1.clients ∧ acc.1.clients.Nodup)
      ?_ l1 hc_l1 (st, []) ⟨rfl, hc, hnd⟩
    rintro acc d hdc ⟨hs, hm, hn⟩
    exact ⟨(tickStep_socks acc d c (Ne.symm hdc)).trans hs,
           tickStep_clients_mem acc d c (Ne.symm hdc) hm,
           tickStep_clients_nodup acc d hn⟩
  refine ⟨?_, ?_, by unfold CallSignal.pong; simp, rfl⟩
  · intro hdead
    have hdead1 : ((l1.foldl CallSignal.tickStep (st, [])).1.socks c).isAlive = false := by
      rw [hacc1.1]; exact hdead
    obtain ⟨hd1, hd2, hd3⟩ :=
      tickStep_dead (l1.foldl CallSignal.tickStep (st, [])) c hdead1 hacc1.2.2
    have hd3' : ∀ uid, (st.socks c).userId = some uid → uid ≠ "" →
        (CallSignal.tickStep (l1.foldl CallSignal.tickStep (st, [])) c).1.onlineUsers uid = none
        ∧ ((st.socks c).userRole = some "Client" →
            (CallSignal.tickStep (l1.foldl CallSignal.tickStep (st, [])) c).1.onlineCouriers uid
              = none) := by
      intro uid huid hune
      have h := hd3 uid (by rw [hacc1.1]; exact huid) hune
      exact ⟨h.1, fun hr => h.2 (by rw [hacc1.1]; exact hr)⟩
    have hfin := tickFoldPres c
      (fun acc => c ∉ acc.1.clients ∧ (acc.1.socks c).readyState = wsCLOSED
        ∧ ∀ uid, (st.socks c).userId = some uid → uid ≠ "" →
            acc.1.onlineUsers uid = none
            ∧ ((st.socks c).userRole = some "Client" → acc.1.onlineCouriers uid = none))
      ?_ l2 hc_l2 _ ⟨hd1, hd2, hd3'⟩
    · rw [htick]
      exact hfin
    · rintro acc d hdc ⟨p1, p2, p3⟩
      refine ⟨tickStep_clients_notmem acc d c p1,
              by rw [tickStep_socks acc d c (Ne.symm hdc)]; exact p2, ?_⟩
      intro uid huid hune
      exact ⟨tickStep_users_none acc d uid (p3 uid huid hune).1,
             fun hr => tickStep_couriers_none acc d uid ((p3 uid huid hune).2 hr)⟩
  · intro hlive
    have hlive1 : ((l1.foldl CallSignal.tickStep (st, [])).1.socks c).isAlive = true := by
      rw [hacc1.1]; exact hlive
    obtain ⟨hl1, hl2, hl3⟩ := tickStep_live (l1.foldl CallSignal.tickStep (st, [])) c hlive1
    have hfin := tickFoldPres c
      (fun acc => acc.1.socks c = { st.socks c with isAlive := false }
        ∧ c ∈ acc.1.clients ∧ c ∈ acc.2)
      ?_ l2 hc_l2 _ ⟨by rw [hl1, hacc1.1], by rw [hl2]; exact hacc1.2.1, hl3⟩
    · rw [htick]
      exact hfin
    · rintro acc d hdc ⟨p1, p2, p3⟩
      exact ⟨(tickStep_socks acc d c (Ne.symm hdc)).trans p1,
             tickStep_clients_mem acc d c (Ne.symm hdc) p2,
             tickStep_sends_mem acc d c p3⟩

/-- **C7** witness: in `csTick`, socket 0 missed its probe and socket 1
answered it; one tick terminates and deregisters socket 0 and marks and
pings socket 1; a pong restores socket 0's flag. -/
theorem c7_liveness_tick_witness :
    (csTick.clients.Nodup ∧ 0 ∈ csTick.clients ∧ 1 ∈ csTick.clients
      ∧ (csTick.socks 0).isAlive = false
      ∧ (csTick.socks 0).userId = some "U" ∧ "U" ≠ ""
      ∧ (csTick.socks 0).userRole = some "Client"
      ∧ (csTick.socks 1).isAlive = true)
    ∧ (0 ∉ (CallSignal.tick csTick).1.clients
      ∧ ((CallSignal.tick csTick).1.socks 0).readyState = wsCLOSED
      ∧ (CallSignal.tick csTick).1.onlineUsers "U" = none
      ∧ (CallSignal.tick csTick).1.onlineCouriers "U" = none
      ∧ (CallSignal.tick csTick).1.socks 1 = { csTick.socks 1 with isAlive := false }
      ∧ 1 ∈ (CallSignal.tick csTick).1.clients
      ∧ 1 ∈ (CallSignal.tick csTick).2
      ∧ ((CallSignal.pong csTick 0).socks 0).isAlive = true
      ∧ CallSignal.livenessIntervalMs = 30000) :=
  ⟨⟨by decide, by decide, by decide, by decide, by decide, by decide, by decide, by decide⟩,
   let H0 := c7_liveness_tick csTick 0 (by decide) (by decide)
   let H1 := c7_liveness_tick csTick 1 (by decide) (by decide)
   let D := H0.1 (by decide)
   let R := D.2.2 "U" (by decide) (by decide)
   let L := H1.2.1 (by decide)
   ⟨D.1, D.2.1, R.1, R.2 (by decide), L.1, L.2.1, L.2.2, H0.2.2.1, H0.2.2.2⟩⟩
